import Mathlib

/-!
Verification development for the `aegis` sealing service core.

The embedding models bytes as natural numbers below 256, byte buffers as
`List Nat`, and a byte stream as a list consumed from the front: a reading
operation returns the parsed value together with the unconsumed rest of the
stream.  Fallible operations return `Except AegisError`.

Sources embedded here:
  * `src/core/error.rs`   — the `AegisError` enum,
  * `src/core/format.rs`  — the `AegisAncient` container, `write` and `read`,
  * `src/core/crypto.rs`  — `seal`.

The SHA-256 and P-256 ECDSA primitives live in the external `sha2` and `p256`
crates, not in this repository; SHA-256 is reproduced here from its public
definition (FIPS 180-4) and the ECDSA signing primitives are modelled
abstractly, with their correctness contract stated as an explicit hypothesis
where a theorem needs it.
-/

namespace Aegis

/-- The error enum of `src/core/error.rs`: `Io(std::io::Error)`,
`Crypto(String)`, and (under the `verifier` feature) `InvalidFormat`.
The payload of the I/O variant is irrelevant to the claims and is dropped. -/
inductive AegisError where
  | ioError : AegisError
  | crypto : String → AegisError
  | invalidFormat : AegisError
deriving DecidableEq

/-- The container struct of `src/core/format.rs`.  `metadata` is a Rust
`String`; it is modelled by its UTF-8 byte content (`String::from_utf8`
keeps the bytes unchanged, `as_bytes` returns them). -/
structure AegisAncient where
  public_key : List Nat
  metadata : List Nat
  signature : List Nat
  image_data : List Nat
deriving DecidableEq

/-- `const MAGIC_NUMBER: &[u8; 6] = b"AEGIS1"` — the ASCII bytes of "AEGIS1". -/
def MAGIC_NUMBER : List Nat := [65, 69, 71, 73, 83, 49]

/-- `const MAX_BLOCK_SIZE: u64 = 1_000_000_000` (1GB limit). -/
def MAX_BLOCK_SIZE : Nat := 1000000000

/-- `u64::to_be_bytes`: the 8-byte big-endian encoding of `n % 2^64`
(in Rust the argument is already a `u64`). -/
def be64 (n : Nat) : List Nat :=
  [n / 72057594037927936 % 256, n / 281474976710656 % 256,
   n / 1099511627776 % 256, n / 4294967296 % 256,
   n / 16777216 % 256, n / 65536 % 256, n / 256 % 256, n % 256]

/-- `u64::from_be_bytes`: big-endian interpretation of a byte buffer. -/
def beDecode (l : List Nat) : Nat := l.foldl (fun a b => a * 256 + b) 0

/-- `Write::write_all` into an in-memory sink (a `Vec<u8>` sink, as the
service uses, never fails): append the bytes to the sink. -/
def writeAll (w data : List Nat) : List Nat := w ++ data

/-- The `write_block` closure of `AegisAncient::write`: write the 8-byte
big-endian length of `data`, then `data` itself. -/
def writeBlockTo (data w : List Nat) : List Nat :=
  writeAll (writeAll w (be64 data.length)) data

/-- `AegisAncient::write`: magic number, then the four blocks in the fixed
order public_key, metadata, signature, image_data. -/
def AegisAncient.write (self : AegisAncient) (writer : List Nat) : List Nat :=
  let w1 := writeAll writer MAGIC_NUMBER
  let w2 := writeBlockTo self.public_key w1
  let w3 := writeBlockTo self.metadata w2
  let w4 := writeBlockTo self.signature w3
  writeBlockTo self.image_data w4

/-- `Read::read_exact` into an `n`-byte buffer: returns the first `n` bytes
and the rest of the stream, or an I/O error (`UnexpectedEof`) if the stream
holds fewer than `n` bytes. -/
def readExact (n : Nat) (s : List Nat) : Except AegisError (List Nat × List Nat) :=
  if n ≤ s.length then .ok (s.take n, s.drop n) else .error .ioError

/-- The `read_block` closure of `AegisAncient::read`: read an 8-byte
big-endian length, reject it if it exceeds `MAX_BLOCK_SIZE`, then read that
many bytes via `r.take(len).read_to_end` (which yields the available bytes,
at most `len`), and reject if fewer than `len` bytes were obtained. -/
def readBlock (s : List Nat) : Except AegisError (List Nat × List Nat) :=
  match readExact 8 s with
  | .error e => .error e
  | .ok (lenBuf, s1) =>
    let len := beDecode lenBuf
    if len > MAX_BLOCK_SIZE then .error .invalidFormat
    else
      let dataBuf := s1.take len
      if dataBuf.length ≠ len then .error .invalidFormat
      else .ok (dataBuf, s1.drop len)

/-- Rust `core::str` UTF-8 continuation byte test: `0x80 ≤ b ≤ 0xBF`. -/
def isCont (b : Nat) : Bool := 128 ≤ b && b ≤ 191

/-- `String::from_utf8` validity (Rust `core::str::from_utf8`): standard
UTF-8 wellformedness, rejecting overlong forms, surrogates and code points
above U+10FFFF.  First-byte ranges: ASCII `0x00–0x7F`; two bytes
`0xC2–0xDF`; three bytes `0xE0–0xEF` (with restricted second byte after
`0xE0` and `0xED`); four bytes `0xF0–0xF4` (with restricted second byte
after `0xF0` and `0xF4`). -/
def utf8Valid : List Nat → Bool
  | [] => true
  | b :: rest =>
    if b ≤ 127 then utf8Valid rest
    else if b < 194 then false
    else if b ≤ 223 then
      match rest with
      | [] => false
      | c1 :: r => isCont c1 && utf8Valid r
    else if b ≤ 239 then
      match rest with
      | c1 :: c2 :: r =>
        (if b = 224 then 160 ≤ c1 && c1 ≤ 191
         else if b = 237 then 128 ≤ c1 && c1 ≤ 159
         else isCont c1) && isCont c2 && utf8Valid r
      | _ => false
    else if b ≤ 244 then
      match rest with
      | c1 :: c2 :: c3 :: r =>
        (if b = 240 then 144 ≤ c1 && c1 ≤ 191
         else if b = 244 then 128 ≤ c1 && c1 ≤ 143
         else isCont c1) && isCont c2 && isCont c3 && utf8Valid r
      | _ => false
    else false

/-- `AegisAncient::read` (the `verifier` feature): read and check the 6-byte
magic, read the four blocks in order, validate metadata as UTF-8, and return
the container.  The unconsumed rest of the stream is returned alongside,
mirroring the Rust reader being left at the position after the fourth
block. -/
def AegisAncient.read (s : List Nat) : Except AegisError (AegisAncient × List Nat) :=
  match readExact 6 s with
  | .error e => .error e
  | .ok (magicBuf, s1) =>
    if magicBuf ≠ MAGIC_NUMBER then .error .invalidFormat
    else
      match readBlock s1 with
      | .error e => .error e
      | .ok (public_key, s2) =>
        match readBlock s2 with
        | .error e => .error e
        | .ok (metadata_bytes, s3) =>
          if utf8Valid metadata_bytes then
            match readBlock s3 with
            | .error e => .error e
            | .ok (signature, s4) =>
              match readBlock s4 with
              | .error e => .error e
              | .ok (image_data, s5) =>
                .ok ({ public_key := public_key, metadata := metadata_bytes,
                       signature := signature, image_data := image_data }, s5)
          else .error .invalidFormat

namespace Sha256

/-- Reduction to a 32-bit word. -/
def u32 (x : Nat) : Nat := x % 4294967296

/-- 32-bit right rotation. -/
def rotr (n x : Nat) : Nat := u32 ((x >>> n) ||| (x <<< (32 - n)))

def bigSigma0 (x : Nat) : Nat := rotr 2 x ^^^ rotr 13 x ^^^ rotr 22 x

def bigSigma1 (x : Nat) : Nat := rotr 6 x ^^^ rotr 11 x ^^^ rotr 25 x

def smallSigma0 (x : Nat) : Nat := rotr 7 x ^^^ rotr 18 x ^^^ (x >>> 3)

def smallSigma1 (x : Nat) : Nat := rotr 17 x ^^^ rotr 19 x ^^^ (x >>> 10)

def ch (x y z : Nat) : Nat := (x &&& y) ^^^ ((x ^^^ 4294967295) &&& z)

def maj (x y z : Nat) : Nat := (x &&& y) ^^^ (x &&& z) ^^^ (y &&& z)

/-- The 64 SHA-256 round constants (FIPS 180-4 §4.2.2), in decimal:
the first 32 bits of the fractional parts of the cube roots of the first
64 primes. -/
def K : List Nat :=
  [1116352408, 1899447441, 3049323471, 3921009573,
   961987163, 1508970993, 2453635748, 2870763221,
   3624381080, 310598401, 607225278, 1426881987,
   1925078388, 2162078206, 2614888103, 3248222580,
   3835390401, 4022224774, 264347078, 604807628,
   770255983, 1249150122, 1555081692, 1996064986,
   2554220882, 2821834349, 2952996808, 3210313671,
   3336571891, 3584528711, 113926993, 338241895,
   666307205, 773529912, 1294757372, 1396182291,
   1695183700, 1986661051, 2177026350, 2456956037,
   2730485921, 2820302411, 3259730800, 3345764771,
   3516065817, 3600352804, 4094571909, 275423344,
   430227734, 506948616, 659060556, 883997877,
   958139571, 1322822218, 1537002063, 1747873779,
   1955562222, 2024104815, 2227730452, 2361852424,
   2428436474, 2756734187, 3204031479, 3329325298]

/-- The initial hash value (FIPS 180-4 §5.3.3), in decimal: the first 32
bits of the fractional parts of the square roots of the first 8 primes. -/
def H0 : List Nat :=
  [1779033703, 3144134277, 1013904242, 2773480762,
   1359893119, 2600822924, 528734635, 1541459225]

/-- Group bytes into big-endian 32-bit words. -/
def toWords : List Nat → List Nat
  | a :: b :: c :: d :: rest =>
    (a * 16777216 + b * 65536 + c * 256 + d) :: toWords rest
  | _ => []

/-- Extend the 16 message words of a chunk to the 64-entry message
schedule (FIPS 180-4 §6.2.2 step 1). -/
def schedule (ws : List Nat) : List Nat :=
  (List.range 48).foldl
    (fun acc i =>
      acc ++ [u32 (smallSigma1 (acc.getD (i + 14) 0) + acc.getD (i + 9) 0 +
                   smallSigma0 (acc.getD (i + 1) 0) + acc.getD i 0)])
    ws

/-- One SHA-256 compression round. -/
def round (s : List Nat) (kw : Nat × Nat) : List Nat :=
  match s with
  | [a, b, c, d, e, f, g, hh] =>
    let t1 := u32 (hh + bigSigma1 e + ch e f g + kw.1 + kw.2)
    let t2 := u32 (bigSigma0 a + maj a b c)
    [u32 (t1 + t2), a, b, c, u32 (d + t1), e, f, g]
  | other => other

/-- Process one 64-byte chunk (FIPS 180-4 §6.2.2). -/
def compress (h : List Nat) (chunk : List Nat) : List Nat :=
  let w := schedule (toWords chunk)
  let s := (K.zip w).foldl round h
  (h.zip s).map (fun p => u32 (p.1 + p.2))

/-- SHA-256 padding: a `0x80` byte, zeros to 56 mod 64, then the bit length
as a 64-bit big-endian integer. -/
def pad (m : List Nat) : List Nat :=
  let l := m.length
  m ++ 128 :: List.replicate ((55 + 64 - l % 64) % 64) 0 ++ be64 (l * 8)

/-- Split a byte list into 64-byte chunks. -/
def chunks64 : List Nat → List (List Nat)
  | [] => []
  | b :: rest => ((b :: rest).take 64) :: chunks64 ((b :: rest).drop 64)
termination_by l => l.length
decreasing_by simp [List.drop_drop]; omega

/-- Serialize a 32-bit word to 4 big-endian bytes. -/
def wordBytes (w : Nat) : List Nat :=
  [w / 16777216 % 256, w / 65536 % 256, w / 256 % 256, w % 256]

/-- Modelled from the spec: the `Sha256` hash of the `sha2` crate, which is
external to this repository; reproduced from the public SHA-256 definition
(FIPS 180-4). -/
def sha256 (m : List Nat) : List Nat :=
  ((chunks64 (pad m)).foldl compress H0).map wordBytes |>.flatten

/-- Modelled from the spec: `Sha256::new()` of the `sha2` crate — streaming
state, modelled as the bytes absorbed so far. -/
def newState : List Nat := []

/-- Modelled from the spec: `Digest::update` of the `sha2` crate — absorb
further bytes. -/
def update (st bs : List Nat) : List Nat := st ++ bs

/-- Modelled from the spec: `Digest::finalize` of the `sha2` crate — the
SHA-256 digest of all absorbed bytes. -/
def finalize (st : List Nat) : List Nat := sha256 st

end Sha256

/-- Modelled from the spec: the P-256 ECDSA primitives of the `p256` crate
(`SigningKey`, `Signer::sign`, `VerifyingKey::to_sec1_bytes`, and signature
verification), which are external to this repository.  `sign` maps a private
key and a message to a signature byte string (`Signature::to_bytes`),
`verifyingKeySec1` is the compressed SEC1 encoding of the derived public
key, and `verify` is the verification predicate the downstream verifier
applies. -/
structure EcdsaP256 where
  SigningKey : Type
  sign : SigningKey → List Nat → List Nat
  verifyingKeySec1 : SigningKey → List Nat
  verify : List Nat → List Nat → List Nat → Bool

/-- The ECDSA correctness contract of the `p256` crate: a signature honestly
produced with a private key verifies under the matching public key. -/
def EcdsaSound (S : EcdsaP256) : Prop :=
  ∀ k m, S.verify (S.verifyingKeySec1 k) m (S.sign k m) = true

/-- The digest computed by `seal` in `src/core/crypto.rs`:
`Sha256::new()`, `update(metadata.as_bytes())`, `update(&image_data)`,
`finalize()`. -/
def sealDigest (metadata image_data : List Nat) : List Nat :=
  Sha256.finalize (Sha256.update (Sha256.update Sha256.newState metadata) image_data)

/-- `seal` of `src/core/crypto.rs`: hash metadata ‖ image_data, sign the
digest, and package everything into an `AegisAncient`. -/
def seal' (S : EcdsaP256) (metadata : List Nat) (image_data : List Nat)
    (private_key : S.SigningKey) : Except AegisError AegisAncient :=
  let public_key := S.verifyingKeySec1 private_key
  let data_hash := sealDigest metadata image_data
  let signature := S.sign private_key data_hash
  .ok { public_key := public_key, metadata := metadata,
        signature := signature, image_data := image_data }

/-- A concrete scheme satisfying the ECDSA contract, used to witness
theorems that hypothesise `EcdsaSound`. -/
def toyScheme : EcdsaP256 where
  SigningKey := List Nat
  sign := fun k m => k ++ m
  verifyingKeySec1 := fun k => k
  verify := fun pk m s => s == pk ++ m

/-! ### Helper lemmas -/

theorem be64_length (n : Nat) : (be64 n).length = 8 := by
  simp [be64]

theorem beDecode_be64 (n : Nat) (h : n < 18446744073709551616) :
    beDecode (be64 n) = n := by
  simp only [be64, beDecode, List.foldl]
  omega

theorem readExact_append (n : Nat) (a b : List Nat) (ha : a.length = n) :
    readExact n (a ++ b) = .ok (a, b) := by
  subst ha
  simp [readExact, List.take_left, List.drop_left]

theorem readBlock_append (d rest : List Nat) (hd : d.length ≤ MAX_BLOCK_SIZE) :
    readBlock (be64 d.length ++ (d ++ rest)) = .ok (d, rest) := by
  have h8 := readExact_append 8 (be64 d.length) (d ++ rest) (be64_length _)
  have hdec : beDecode (be64 d.length) = d.length :=
    beDecode_be64 _ (by have := hd; simp [MAX_BLOCK_SIZE] at this; omega)
  simp [readBlock, h8, hdec, List.take_left, List.drop_left, Nat.not_lt.mpr hd]

theorem readBlock_oversized (lb rest : List Nat) (h8 : lb.length = 8)
    (hbig : MAX_BLOCK_SIZE < beDecode lb) :
    readBlock (lb ++ rest) = .error .invalidFormat := by
  have h := readExact_append 8 lb rest h8
  simp [readBlock, h, hbig]

theorem readBlock_truncated (lb data : List Nat) (h8 : lb.length = 8)
    (hle : beDecode lb ≤ MAX_BLOCK_SIZE) (hshort : data.length < beDecode lb) :
    readBlock (lb ++ data) = .error .invalidFormat := by
  have h := readExact_append 8 lb data h8
  have htake : data.take (beDecode lb) = data :=
    List.take_of_length_le (Nat.le_of_lt hshort)
  simp [readBlock, h, Nat.not_lt.mpr hle, htake]
  omega

theorem read_magic_ok (s : List Nat) :
    readExact 6 (MAGIC_NUMBER ++ s) = .ok (MAGIC_NUMBER, s) :=
  readExact_append 6 MAGIC_NUMBER s rfl

theorem read_block1_error (s : List Nat) (e : AegisError)
    (h : readBlock s = .error e) :
    AegisAncient.read (MAGIC_NUMBER ++ s) = .error e := by
  simp [AegisAncient.read, read_magic_ok, h]

theorem read_block2_error (s s2 : List Nat) (pk : List Nat) (e : AegisError)
    (h1 : readBlock s = .ok (pk, s2)) (h2 : readBlock s2 = .error e) :
    AegisAncient.read (MAGIC_NUMBER ++ s) = .error e := by
  simp [AegisAncient.read, read_magic_ok, h1, h2]

theorem read_metadata_invalid (s s2 s3 : List Nat) (pk md : List Nat)
    (h1 : readBlock s = .ok (pk, s2)) (h2 : readBlock s2 = .ok (md, s3))
    (hmd : utf8Valid md = false) :
    AegisAncient.read (MAGIC_NUMBER ++ s) = .error .invalidFormat := by
  simp [AegisAncient.read, read_magic_ok, h1, h2, hmd]

theorem read_block3_error (s s2 s3 : List Nat) (pk md : List Nat) (e : AegisError)
    (h1 : readBlock s = .ok (pk, s2)) (h2 : readBlock s2 = .ok (md, s3))
    (hmd : utf8Valid md = true) (h3 : readBlock s3 = .error e) :
    AegisAncient.read (MAGIC_NUMBER ++ s) = .error e := by
  simp [AegisAncient.read, read_magic_ok, h1, h2, hmd, h3]

theorem read_block4_error (s s2 s3 s4 : List Nat) (pk md sg : List Nat)
    (e : AegisError)
    (h1 : readBlock s = .ok (pk, s2)) (h2 : readBlock s2 = .ok (md, s3))
    (hmd : utf8Valid md = true) (h3 : readBlock s3 = .ok (sg, s4))
    (h4 : readBlock s4 = .error e) :
    AegisAncient.read (MAGIC_NUMBER ++ s) = .error e := by
  simp [AegisAncient.read, read_magic_ok, h1, h2, hmd, h3, h4]

theorem read_blocks_ok (s s2 s3 s4 s5 : List Nat) (pk md sg im : List Nat)
    (h1 : readBlock s = .ok (pk, s2)) (h2 : readBlock s2 = .ok (md, s3))
    (hmd : utf8Valid md = true) (h3 : readBlock s3 = .ok (sg, s4))
    (h4 : readBlock s4 = .ok (im, s5)) :
    AegisAncient.read (MAGIC_NUMBER ++ s) =
      .ok ({ public_key := pk, metadata := md, signature := sg,
             image_data := im }, s5) := by
  simp [AegisAncient.read, read_magic_ok, h1, h2, hmd, h3, h4]

theorem write_unfold (c : AegisAncient) (w : List Nat) :
    c.write w =
      w ++ (MAGIC_NUMBER ++
        (be64 c.public_key.length ++ (c.public_key ++
          (be64 c.metadata.length ++ (c.metadata ++
            (be64 c.signature.length ++ (c.signature ++
              (be64 c.image_data.length ++ c.image_data)))))))) := by
  simp [AegisAncient.write, writeBlockTo, writeAll, List.append_assoc]

theorem read_write_ok (c : AegisAncient) (s : List Nat)
    (hpk : c.public_key.length ≤ MAX_BLOCK_SIZE)
    (hmd : c.metadata.length ≤ MAX_BLOCK_SIZE)
    (hmdv : utf8Valid c.metadata = true)
    (hsg : c.signature.length ≤ MAX_BLOCK_SIZE)
    (him : c.image_data.length ≤ MAX_BLOCK_SIZE) :
    AegisAncient.read (c.write [] ++ s) = .ok (c, s) := by
  rw [write_unfold]
  simp only [List.nil_append, List.append_assoc]
  rw [read_blocks_ok _ _ _ _ s c.public_key c.metadata c.signature c.image_data
    (readBlock_append _ _ hpk) (readBlock_append _ _ hmd) hmdv
    (readBlock_append _ _ hsg) (readBlock_append _ _ him)]

theorem sealDigest_sha256 (md img : List Nat) :
    sealDigest md img = Sha256.sha256 (md ++ img) := by
  simp [sealDigest, Sha256.finalize, Sha256.update, Sha256.newState]

/-! ### Claim theorems -/

/-- Claim C1: every container emitted by `seal` carries a signature that
verifies (under the scheme's correctness contract) against the container's
own public key over `SHA256(metadata ‖ image_data)`, and its metadata and
image_data fields equal the seal inputs. -/
theorem seal_emits_verifiable (S : EcdsaP256) (hS : EcdsaSound S)
    (k : S.SigningKey) (md img : List Nat) (c : AegisAncient)
    (h : seal' S md img k = .ok c) :
    S.verify c.public_key (Sha256.sha256 (c.metadata ++ c.image_data))
        c.signature = true ∧
    c.metadata = md ∧ c.image_data = img ∧
    c.public_key = S.verifyingKeySec1 k := by
  simp only [seal', Except.ok.injEq] at h
  subst h
  refine ⟨?_, rfl, rfl, rfl⟩
  show S.verify (S.verifyingKeySec1 k) (Sha256.sha256 (md ++ img))
    (S.sign k (sealDigest md img)) = true
  rw [sealDigest_sha256]
  exact hS k (Sha256.sha256 (md ++ img))

/-- Witness for C1 at the concrete sound scheme `toyScheme`, key `[1]`,
metadata `[104]`, image `[2]`. -/
theorem seal_emits_verifiable_witness :
    EcdsaSound toyScheme ∧
    (toyScheme.verify [1] (Sha256.sha256 ([104] ++ [2]))
        (1 :: sealDigest [104] [2]) = true ∧
     ([104] : List Nat) = [104] ∧ ([2] : List Nat) = [2] ∧
     ([1] : List Nat) = toyScheme.verifyingKeySec1 [1]) :=
  ⟨by intro k m; simp [EcdsaSound, toyScheme],
   seal_emits_verifiable toyScheme
     (by intro k m; simp [EcdsaSound, toyScheme]) [1] [104] [2]
     { public_key := [1], metadata := [104],
       signature := 1 :: sealDigest [104] [2], image_data := [2] } rfl⟩

/-- Counterexample to claim C2 as stated: the container whose public key is
1,000,000,001 zero bytes is valid in the claim's sense (all four fields
present, metadata valid UTF-8), `write` serializes it, but `read` rejects
the serialization with `InvalidFormat` because the declared block length
exceeds `MAX_BLOCK_SIZE`, so no read-back yields the container. -/
theorem write_read_roundtrip_counterexample :
    utf8Valid (AegisAncient.mk (List.replicate 1000000001 0) [] [] []).metadata
      = true ∧
    AegisAncient.read
        ((AegisAncient.mk (List.replicate 1000000001 0) [] [] []).write []) =
      .error .invalidFormat ∧
    ¬ ∃ rest, AegisAncient.read
        ((AegisAncient.mk (List.replicate 1000000001 0) [] [] []).write []) =
      .ok (AegisAncient.mk (List.replicate 1000000001 0) [] [] [], rest) := by
  have herr : AegisAncient.read
      ((AegisAncient.mk (List.replicate 1000000001 0) [] [] []).write []) =
      .error .invalidFormat := by
    rw [write_unfold]
    simp only [List.nil_append, List.append_assoc, List.length_replicate]
    exact read_block1_error _ _ (readBlock_oversized _ _ (be64_length _)
      (by rw [beDecode_be64 _ (by norm_num)]; norm_num [MAX_BLOCK_SIZE]))
  refine ⟨rfl, herr, ?_⟩
  rintro ⟨rest, hr⟩
  rw [herr] at hr
  exact Except.noConfusion hr

/-- Claim C2 (amended): for every container whose metadata is valid UTF-8
and whose four fields each hold at most `MAX_BLOCK_SIZE` bytes, reading
back the bytes produced by writing it yields the container itself,
field-for-field, with the stream fully consumed. -/
theorem write_read_roundtrip (c : AegisAncient)
    (hpk : c.public_key.length ≤ MAX_BLOCK_SIZE)
    (hmd : c.metadata.length ≤ MAX_BLOCK_SIZE)
    (hmdv : utf8Valid c.metadata = true)
    (hsg : c.signature.length ≤ MAX_BLOCK_SIZE)
    (him : c.image_data.length ≤ MAX_BLOCK_SIZE) :
    AegisAncient.read (c.write []) = .ok (c, []) := by
  have h := read_write_ok c [] hpk hmd hmdv hsg him
  simpa using h

/-- Witness for C2 at a concrete small container. -/
theorem write_read_roundtrip_witness :
    AegisAncient.read ((AegisAncient.mk [1] [104] [2, 3] [4]).write []) =
      .ok (AegisAncient.mk [1] [104] [2, 3] [4], []) :=
  write_read_roundtrip (AegisAncient.mk [1] [104] [2, 3] [4])
    (by decide) (by decide) (by decide) (by decide) (by decide)

/-- Claim C3: the digest sealed over is SHA-256 of the exact concatenation
of the metadata bytes and the payload bytes, with no delimiter, so the two
distinct splits ("ab","c") and ("a","bc") hash identically. -/
theorem seal_digest_concat :
    (∀ md img : List Nat, sealDigest md img = Sha256.sha256 (md ++ img)) ∧
    sealDigest [97, 98] [99] = sealDigest [97] [98, 99] ∧
    (([97, 98], [99]) : List Nat × List Nat) ≠ ([97], [98, 99]) := by
  refine ⟨sealDigest_sha256, ?_, by decide⟩
  rw [sealDigest_sha256, sealDigest_sha256]
  simp

/-- Claim C4: `write` emits exactly the ASCII magic "AEGIS1" followed by
the four blocks in fixed order, each an 8-byte big-endian length followed
by the data, with no separators or terminator. -/
theorem write_layout (c : AegisAncient) :
    c.write [] =
      [65, 69, 71, 73, 83, 49] ++
      (be64 c.public_key.length ++ c.public_key) ++
      (be64 c.metadata.length ++ c.metadata) ++
      (be64 c.signature.length ++ c.signature) ++
      (be64 c.image_data.length ++ c.image_data) ∧
    MAGIC_NUMBER = [65, 69, 71, 73, 83, 49] ∧
    (∀ n : Nat, (be64 n).length = 8) := by
  refine ⟨?_, rfl, be64_length⟩
  rw [write_unfold]
  simp [MAGIC_NUMBER, List.append_assoc]

/-- Claim C5: a block whose declared 8-byte length exceeds
`MAX_BLOCK_SIZE` makes `read` fail with `InvalidFormat`, whichever of the
four block positions it occupies, for an arbitrary remainder of the stream
(in particular a remainder far shorter than the declared length: nothing of
the declared size is ever read or allocated). -/
theorem oversized_block_rejected (pk md sg lb tail : List Nat)
    (hpk : pk.length ≤ MAX_BLOCK_SIZE) (hmd : md.length ≤ MAX_BLOCK_SIZE)
    (hmdv : utf8Valid md = true) (hsg : sg.length ≤ MAX_BLOCK_SIZE)
    (h8 : lb.length = 8) (hbig : MAX_BLOCK_SIZE < beDecode lb) :
    AegisAncient.read (MAGIC_NUMBER ++ (lb ++ tail)) = .error .invalidFormat ∧
    AegisAncient.read (MAGIC_NUMBER ++ (be64 pk.length ++ (pk ++ (lb ++ tail))))
      = .error .invalidFormat ∧
    AegisAncient.read (MAGIC_NUMBER ++ (be64 pk.length ++ (pk ++
        (be64 md.length ++ (md ++ (lb ++ tail))))))
      = .error .invalidFormat ∧
    AegisAncient.read (MAGIC_NUMBER ++ (be64 pk.length ++ (pk ++
        (be64 md.length ++ (md ++ (be64 sg.length ++ (sg ++ (lb ++ tail))))))))
      = .error .invalidFormat := by
  have hb := readBlock_oversized lb tail h8 hbig
  exact ⟨read_block1_error _ _ hb,
    read_block2_error _ _ pk _ (readBlock_append _ _ hpk) hb,
    read_block3_error _ _ _ pk md _ (readBlock_append _ _ hpk)
      (readBlock_append _ _ hmd) hmdv hb,
    read_block4_error _ _ _ _ pk md sg _ (readBlock_append _ _ hpk)
      (readBlock_append _ _ hmd) hmdv (readBlock_append _ _ hsg) hb⟩

/-- Witness for C5: declared length 1,000,000,001 with an empty remainder
is rejected at each of the four block positions. -/
theorem oversized_block_rejected_witness :
    MAX_BLOCK_SIZE < beDecode (be64 1000000001) ∧
    (AegisAncient.read (MAGIC_NUMBER ++ (be64 1000000001 ++ []))
        = .error .invalidFormat ∧
     AegisAncient.read (MAGIC_NUMBER ++ (be64 0 ++ ([] ++
        (be64 1000000001 ++ [])))) = .error .invalidFormat ∧
     AegisAncient.read (MAGIC_NUMBER ++ (be64 0 ++ ([] ++ (be64 0 ++ ([] ++
        (be64 1000000001 ++ [])))))) = .error .invalidFormat ∧
     AegisAncient.read (MAGIC_NUMBER ++ (be64 0 ++ ([] ++ (be64 0 ++ ([] ++
        (be64 0 ++ ([] ++ (be64 1000000001 ++ []))))))))
        = .error .invalidFormat) :=
  ⟨by decide,
   oversized_block_rejected [] [] [] (be64 1000000001) []
     (by decide) (by decide) (by decide) (by decide) (by decide) (by decide)⟩

/-- Claim C6: a block whose stream ends before the declared length is
supplied (after the 8-byte length field was read) makes `read` fail with
`InvalidFormat`, whichever of the four block positions it occupies; no
partial container is returned. -/
theorem truncated_block_rejected (pk md sg lb data : List Nat)
    (hpk : pk.length ≤ MAX_BLOCK_SIZE) (hmd : md.length ≤ MAX_BLOCK_SIZE)
    (hmdv : utf8Valid md = true) (hsg : sg.length ≤ MAX_BLOCK_SIZE)
    (h8 : lb.length = 8) (hle : beDecode lb ≤ MAX_BLOCK_SIZE)
    (hshort : data.length < beDecode lb) :
    AegisAncient.read (MAGIC_NUMBER ++ (lb ++ data)) = .error .invalidFormat ∧
    AegisAncient.read (MAGIC_NUMBER ++ (be64 pk.length ++ (pk ++ (lb ++ data))))
      = .error .invalidFormat ∧
    AegisAncient.read (MAGIC_NUMBER ++ (be64 pk.length ++ (pk ++
        (be64 md.length ++ (md ++ (lb ++ data))))))
      = .error .invalidFormat ∧
    AegisAncient.read (MAGIC_NUMBER ++ (be64 pk.length ++ (pk ++
        (be64 md.length ++ (md ++ (be64 sg.length ++ (sg ++ (lb ++ data))))))))
      = .error .invalidFormat := by
  have hb := readBlock_truncated lb data h8 hle hshort
  exact ⟨read_block1_error _ _ hb,
    read_block2_error _ _ pk _ (readBlock_append _ _ hpk) hb,
    read_block3_error _ _ _ pk md _ (readBlock_append _ _ hpk)
      (readBlock_append _ _ hmd) hmdv hb,
    read_block4_error _ _ _ _ pk md sg _ (readBlock_append _ _ hpk)
      (readBlock_append _ _ hmd) hmdv (readBlock_append _ _ hsg) hb⟩

/-- Witness for C6: a block declaring 5 bytes but supplying only 3 is
rejected at each of the four block positions. -/
theorem truncated_block_rejected_witness :
    beDecode (be64 5) ≤ MAX_BLOCK_SIZE ∧
    ([1, 2, 3] : List Nat).length < beDecode (be64 5) ∧
    (AegisAncient.read (MAGIC_NUMBER ++ (be64 5 ++ [1, 2, 3]))
        = .error .invalidFormat ∧
     AegisAncient.read (MAGIC_NUMBER ++ (be64 0 ++ ([] ++
        (be64 5 ++ [1, 2, 3])))) = .error .invalidFormat ∧
     AegisAncient.read (MAGIC_NUMBER ++ (be64 0 ++ ([] ++ (be64 0 ++ ([] ++
        (be64 5 ++ [1, 2, 3])))))) = .error .invalidFormat ∧
     AegisAncient.read (MAGIC_NUMBER ++ (be64 0 ++ ([] ++ (be64 0 ++ ([] ++
        (be64 0 ++ ([] ++ (be64 5 ++ [1, 2, 3]))))))))
        = .error .invalidFormat) :=
  ⟨by decide, by decide,
   truncated_block_rejected [] [] [] (be64 5) [1, 2, 3]
     (by decide) (by decide) (by decide) (by decide) (by decide) (by decide)
     (by decide)⟩

/-- Claim C7: a stream whose first 6 bytes are present but differ from the
ASCII magic "AEGIS1" is rejected with `InvalidFormat`, whatever follows
(in particular before any block is read). -/
theorem bad_magic_rejected (m6 rest : List Nat) (h6 : m6.length = 6)
    (hne : m6 ≠ MAGIC_NUMBER) :
    AegisAncient.read (m6 ++ rest) = .error .invalidFormat := by
  have h := readExact_append 6 m6 rest h6
  simp [AegisAncient.read, h, hne]

/-- Witness for C7 at six zero bytes with an empty remainder. -/
theorem bad_magic_rejected_witness :
    ([0, 0, 0, 0, 0, 0] : List Nat).length = 6 ∧
    ([0, 0, 0, 0, 0, 0] : List Nat) ≠ MAGIC_NUMBER ∧
    AegisAncient.read ([0, 0, 0, 0, 0, 0] ++ []) = .error .invalidFormat :=
  ⟨by decide, by decide,
   bad_magic_rejected [0, 0, 0, 0, 0, 0] [] (by decide) (by decide)⟩

/-- Claim C8: a metadata block present with its declared length but holding
bytes that are not valid UTF-8 makes `read` fail with `InvalidFormat`; and
the metadata of every container `read` returns is valid UTF-8. -/
theorem metadata_utf8_enforced :
    (∀ pk mdBytes tail : List Nat, pk.length ≤ MAX_BLOCK_SIZE →
      mdBytes.length ≤ MAX_BLOCK_SIZE → utf8Valid mdBytes = false →
      AegisAncient.read (MAGIC_NUMBER ++ (be64 pk.length ++ (pk ++
          (be64 mdBytes.length ++ (mdBytes ++ tail)))))
        = .error .invalidFormat) ∧
    (∀ (s rest : List Nat) (c : AegisAncient),
      AegisAncient.read s = .ok (c, rest) → utf8Valid c.metadata = true) := by
  constructor
  · intro pk mdB tail hpk hmd hinv
    exact read_metadata_invalid _ _ _ pk mdB (readBlock_append _ _ hpk)
      (readBlock_append _ _ hmd) hinv
  · intro s rest c h
    unfold AegisAncient.read at h
    repeat' split at h
    all_goals try exact Except.noConfusion h
    simp only [Except.ok.injEq, Prod.mk.injEq] at h
    obtain ⟨h1, h2⟩ := h
    subst h1
    assumption

/-- Witness for C8: the lone continuation byte `0x80` as metadata is
rejected. -/
theorem metadata_utf8_enforced_witness :
    utf8Valid [128] = false ∧
    AegisAncient.read (MAGIC_NUMBER ++ (be64 0 ++ ([] ++
        (be64 1 ++ ([128] ++ []))))) = .error .invalidFormat :=
  ⟨by decide,
   metadata_utf8_enforced.1 [] [128] [] (by decide) (by decide) (by decide)⟩

/-- Claim C9: `read` performs no end-of-stream check after the fourth
block: for every read-accepted container and arbitrary trailing bytes,
reading `write(C) ++ S` succeeds, returns `C`, and leaves `S` unconsumed
and unvalidated. -/
theorem trailing_bytes_ignored (c : AegisAncient) (s : List Nat)
    (hpk : c.public_key.length ≤ MAX_BLOCK_SIZE)
    (hmd : c.metadata.length ≤ MAX_BLOCK_SIZE)
    (hmdv : utf8Valid c.metadata = true)
    (hsg : c.signature.length ≤ MAX_BLOCK_SIZE)
    (him : c.image_data.length ≤ MAX_BLOCK_SIZE) :
    AegisAncient.read (c.write [] ++ s) = .ok (c, s) :=
  read_write_ok c s hpk hmd hmdv hsg him

/-- Witness for C9: trailing garbage `[255, 0, 7]` after a well-formed
container is returned unconsumed. -/
theorem trailing_bytes_ignored_witness :
    AegisAncient.read ((AegisAncient.mk [7] [] [8] [9]).write [] ++ [255, 0, 7])
      = .ok (AegisAncient.mk [7] [] [8] [9], [255, 0, 7]) :=
  trailing_bytes_ignored (AegisAncient.mk [7] [] [8] [9]) [255, 0, 7]
    (by decide) (by decide) (by decide) (by decide) (by decide)

/-- Claim C10: `seal` is infallible: for every metadata, payload and
private key it returns `Ok` with a fully populated container and never an
error variant. -/
theorem seal_infallible (S : EcdsaP256) (k : S.SigningKey)
    (md img : List Nat) :
    ∃ c : AegisAncient, seal' S md img k = .ok c ∧
      c.public_key = S.verifyingKeySec1 k ∧ c.metadata = md ∧
      c.signature = S.sign k (sealDigest md img) ∧ c.image_data = img :=
  ⟨{ public_key := S.verifyingKeySec1 k, metadata := md,
     signature := S.sign k (sealDigest md img), image_data := img },
   rfl, rfl, rfl, rfl, rfl⟩

end Aegis

